import Mathlib

/-!
Verification of the order-checkout / inventory core of the NEXTJSPOS repository.

The TypeScript source is shallowly embedded:
* money amounts are exact rationals (ℚ); `Math.round` is Mathlib's `round`
  (both are floor of x + 1/2);
* the persistence layer (Supabase/Postgres) is a `DB` record of four tables,
  threaded explicitly through each server action;
* fallible database statements are driven by a `DbFaults` record that says
  which statement the storage layer makes fail, so atomicity claims can
  quantify over the failure point;
* the Postgres trigger `update_inventory_on_order` from
  `database_schema.sql` is embedded as a function applied at the moment an
  order row is inserted, exactly as `AFTER INSERT ON orders` fires.
-/

namespace POS

/-- Function `formatDecimal` from `src/lib/utils/index.ts` at its default of 2
decimals: `Math.round(num * 100) / 100`. -/
def formatDecimal (num : ℚ) : ℚ := (round (num * 100) : ℚ) / 100

/-- Function `calculateTax` from `src/lib/utils/index.ts`:
`formatDecimal(amount * (taxRate / 100))`. -/
def calculateTax (amount taxRate : ℚ) : ℚ := formatDecimal (amount * (taxRate / 100))

/-- The `{ subtotal, tax, total }` record returned by the two totals helpers. -/
structure LineTotals where
  subtotal : ℚ
  tax : ℚ
  total : ℚ
deriving Repr, DecidableEq

/-- Function `calculateLineTotal` from `src/lib/utils/index.ts`: the subtotal is
rounded first and the tax is computed on the rounded subtotal. -/
def calculateLineTotal (unitPrice : ℚ) (quantity : ℕ) (taxRate : ℚ) : LineTotals :=
  let subtotal := formatDecimal (unitPrice * quantity)
  let tax := calculateTax subtotal taxRate
  let total := formatDecimal (subtotal + tax)
  ⟨subtotal, tax, total⟩

/-- One element of the array passed to `calculateCartTotals`. -/
structure TotalsItem where
  quantity : ℕ
  unit_price : ℚ
  tax_rate : ℚ
deriving Repr, DecidableEq

/-- Function `calculateCartTotals` from `src/lib/utils/index.ts`: the `forEach`
loop accumulates the unrounded item subtotal `quantity * unit_price` and the
per-item rounded tax, then each returned field is rounded once. -/
def calculateCartTotals (items : List TotalsItem) : LineTotals :=
  let subtotal := (items.map (fun i => (i.quantity : ℚ) * i.unit_price)).sum
  let tax := (items.map (fun i => calculateTax ((i.quantity : ℚ) * i.unit_price) i.tax_rate)).sum
  ⟨formatDecimal subtotal, formatDecimal tax, formatDecimal (subtotal + tax)⟩

/-- A row of the `products` table (`database_schema.sql`, lines 85-100).
Only the columns the checkout core reads are kept.  The column is declared
`INT CHECK (quantity_on_hand >= 0)`; it is modelled as ℤ so that the check
itself can be talked about. -/
structure Product where
  id : ℕ
  name : String
  price : ℚ
  tax_rate : ℚ
  quantity_on_hand : ℤ
deriving Repr, DecidableEq

/-- The client-supplied product object embedded in a cart item
(`CartItem.product` in `src/lib/types.ts`); `createOrder` reads its
`name`, `price` and `tax_rate`. -/
structure ProductSnapshot where
  name : String
  price : ℚ
  tax_rate : ℚ
deriving Repr, DecidableEq

/-- A cart line as passed to `createOrder`. -/
structure CartItem where
  product_id : ℕ
  quantity : ℕ
  product : ProductSnapshot
deriving Repr, DecidableEq

/-- The `status` column of `orders`. -/
inductive OrderStatus
  | pending
  | completed
  | cancelled
deriving Repr, DecidableEq, BEq

/-- A row of the `orders` table. -/
structure Order where
  id : ℕ
  cashier_id : ℕ
  order_number : String
  status : OrderStatus
  subtotal : ℚ
  tax_total : ℚ
  total : ℚ
  payment_method : String
  notes : Option String
deriving Repr, DecidableEq

/-- A row of the `order_items` table. -/
structure OrderItem where
  order_id : ℕ
  product_id : ℕ
  quantity : ℕ
  unit_price : ℚ
  tax_rate : ℚ
  line_total : ℚ
deriving Repr, DecidableEq

/-- The `transaction_type` column of `inventory_logs`.  The SQL enum value
named return is spelled `ret` because the word is a Lean keyword. -/
inductive TxType
  | sale
  | stock_in
  | adjustment
  | ret
deriving Repr, DecidableEq, BEq

/-- A row of the `inventory_logs` table. -/
structure InventoryLog where
  product_id : ℕ
  transaction_type : TxType
  quantity_change : ℤ
  reference_id : Option ℕ
  reference_type : Option String
  notes : Option String
  created_by : ℕ
deriving Repr, DecidableEq

/-- The persistent store: the four durable collections of the core, plus a
counter supplying fresh order ids (the database generates UUIDs; any source
of ids works, only freshness matters). -/
structure DB where
  products : List Product
  orders : List Order
  order_items : List OrderItem
  inventory_logs : List InventoryLog
  next_order_id : ℕ
deriving Repr, DecidableEq

/-- The uniform `ApiResponse` result shape from `src/lib/types.ts`:
`{ success, data?, error?, message? }`. -/
structure ApiResponse (α : Type) where
  success : Bool
  data : Option α
  error : Option String
  message : Option String
deriving Repr, DecidableEq

/-- A failure result: `{ success: false, error }`. -/
def errResp {α : Type} (e : String) : ApiResponse α := ⟨false, none, some e, none⟩

/-- A success result: `{ success: true, data, message }`. -/
def okResp {α : Type} (a : α) (msg : String) : ApiResponse α := ⟨true, some a, none, some msg⟩

/-- Which storage statements the persistence layer makes fail during one
invocation.  `orderInsertError` carries the message of a failing order-header
insert (the source uses `orderError?.message` with a fallback when the message
is falsy). -/
structure DbFaults where
  orderInsertError : Option String
  orderItemsInsertFails : Bool
  cancelItemsFetchFails : Bool
  cancelLogInsertFails : Bool
  cancelStatusUpdateError : Option String
deriving Repr, DecidableEq

/-- The run in which every storage statement succeeds. -/
def noFaults : DbFaults := ⟨none, false, false, false, none⟩

/-- Look a product up by id, as the `.from(products).select().eq(id, ...)`
queries do. -/
def findProduct (db : DB) (pid : ℕ) : Option Product :=
  db.products.find? (fun p => p.id == pid)

/-- The validation loop of `createOrder` (`src/lib/actions/orders.ts`,
lines 38-58): for each cart line, fetch the live product; report the first
missing product or the first line whose live `quantity_on_hand` is below the
requested quantity.  The messages are the exact source strings; note the
insufficient-stock message names `cartItem.product.name`, taken from the
client snapshot. -/
def validateItems (db : DB) : List CartItem → Option String
  | [] => none
  | item :: rest =>
    match findProduct db item.product_id with
    | none => some ("Product not found: " ++ toString item.product_id)
    | some p =>
      if p.quantity_on_hand < (item.quantity : ℤ) then
        some ("Insufficient stock for product: " ++ item.product.name)
      else
        validateItems db rest

/-- The trigger function `update_inventory_on_order` from
`database_schema.sql` (lines 297-318): for each row of `order_items` whose
`order_id` equals the id of the just-inserted `orders` row, decrement the
product and insert a sale log entry.  The trigger is declared
`AFTER INSERT ON orders` (line 320), so it runs when the order header is
inserted — before `createOrder` has inserted any `order_items` rows. -/
def update_inventory_on_order (db : DB) (newOrder : Order) : DB :=
  (db.order_items.filter (fun it => it.order_id == newOrder.id)).foldl
    (fun d it =>
      { d with
        products := d.products.map (fun p =>
          if p.id == it.product_id then
            { p with quantity_on_hand := p.quantity_on_hand - (it.quantity : ℤ) }
          else p),
        inventory_logs := d.inventory_logs ++
          [{ product_id := it.product_id, transaction_type := TxType.sale,
             quantity_change := -(it.quantity : ℤ), reference_id := some newOrder.id,
             reference_type := some "order", notes := none,
             created_by := newOrder.cashier_id }] })
    db

/-- Server action `createOrder` from `src/lib/actions/orders.ts` (lines
20-147).  `generateOrderNumber()` is time- and randomness-based, so the
generated number is modelled as the input `orderNumber`.  After the header
insert the `AFTER INSERT ON orders` trigger fires.  When the `order_items`
insert fails the source soft-deletes: it updates the new order to status
cancelled and returns a failure. -/
def createOrder (f : DbFaults) (db : DB) (cashierId : ℕ) (items : List CartItem)
    (paymentMethod : String) (notes : Option String) (orderNumber : String) :
    ApiResponse Order × DB :=
  if items.isEmpty then
    (errResp "Cart is empty", db)
  else
    match validateItems db items with
    | some e => (errResp e, db)
    | none =>
      let orderItems := items.map (fun i =>
        TotalsItem.mk i.quantity i.product.price i.product.tax_rate)
      let totals := calculateCartTotals orderItems
      match f.orderInsertError with
      | some msg => (errResp (if msg = "" then "Failed to create order" else msg), db)
      | none =>
        let order : Order :=
          { id := db.next_order_id, cashier_id := cashierId, order_number := orderNumber,
            status := OrderStatus.completed, subtotal := totals.subtotal,
            tax_total := totals.tax, total := totals.total,
            payment_method := paymentMethod, notes := notes }
        let db1 := update_inventory_on_order
          { db with orders := db.orders ++ [order], next_order_id := db.next_order_id + 1 }
          order
        let lineItems := items.map (fun i =>
          let t := calculateCartTotals [TotalsItem.mk i.quantity i.product.price i.product.tax_rate]
          OrderItem.mk order.id i.product_id i.quantity i.product.price i.product.tax_rate t.total)
        if f.orderItemsInsertFails then
          (errResp "Failed to create order items",
           { db1 with orders := db1.orders.map (fun o =>
               if o.id == order.id then { o with status := OrderStatus.cancelled } else o) })
        else
          (okResp order ("Order " ++ orderNumber ++ " created successfully"),
           { db1 with order_items := db1.order_items ++ lineItems })

/-- The call `supabase.rpc` with name increment made by `cancelOrder`
(`src/lib/actions/orders.ts`, line 386).  `database_schema.sql` defines no
function named increment, so the call always returns an error and changes
nothing; `cancelOrder` discards the returned value, so the error is
invisible to it. -/
def rpcIncrement (db : DB) (rowId : ℕ) (amount : ℕ) : Option String × DB :=
  (some ("function increment does not exist, row " ++ toString rowId ++ " amount " ++ toString amount), db)

/-- The compensating log row `cancelOrder` inserts for one order item
(`src/lib/actions/orders.ts`, lines 392-400). -/
def retEntry (orderId userId : ℕ) (item : OrderItem) : InventoryLog :=
  { product_id := item.product_id, transaction_type := TxType.ret,
    quantity_change := (item.quantity : ℤ), reference_id := some orderId,
    reference_type := some "order",
    notes := some ("Order " ++ toString orderId ++ " cancelled - inventory restored"),
    created_by := userId }

/-- The restore loop of `cancelOrder` (lines 384-401): per item, call the
increment rpc and insert a return log entry.  The source awaits both calls but
never reads their results, so a failure of either is silently dropped. -/
def restoreItems (f : DbFaults) (orderId userId : ℕ) : DB → List OrderItem → DB
  | db, [] => db
  | db, item :: rest =>
    let db1 := (rpcIncrement db item.product_id item.quantity).2
    let db2 :=
      if f.cancelLogInsertFails then db1
      else { db1 with inventory_logs := db1.inventory_logs ++ [retEntry orderId userId item] }
    restoreItems f orderId userId db2 rest

/-- Server action `cancelOrder` from `src/lib/actions/orders.ts` (lines
366-429): fetch the order items, run the restore loop, then update the order
row to status cancelled (`.single()` errors when no row matches).  There is no
read of the current status anywhere in the function. -/
def cancelOrder (f : DbFaults) (db : DB) (orderId : ℕ) (userId : ℕ) :
    ApiResponse Order × DB :=
  if f.cancelItemsFetchFails then
    (errResp "Failed to fetch order items", db)
  else
    let orderItems := db.order_items.filter (fun it => it.order_id == orderId)
    let db1 := restoreItems f orderId userId db orderItems
    match f.cancelStatusUpdateError with
    | some msg => (errResp msg, db1)
    | none =>
      match db1.orders.find? (fun o => o.id == orderId) with
      | none => (errResp "order not found", db1)
      | some o =>
        (okResp { o with status := OrderStatus.cancelled } "Order cancelled and inventory restored",
         { db1 with orders := db1.orders.map (fun x =>
             if x.id == orderId then { o with status := OrderStatus.cancelled } else x) })

/-- Server action `updateStock` from `src/lib/actions/products.ts` (lines
469-527).  Its update statement assigns the expression
`supabase.from(products).select(quantity_on_hand).eq(id, productId)` — a
query-builder object, not a number — as the new `quantity_on_hand` of an INT
column, so the statement always fails; `updateStock` checks this error and
returns it before the log insert runs.  No path of the function can apply
`quantityChange` to the product or append a log entry. -/
def updateStock (db : DB) (productId : ℕ) (quantityChange : ℤ)
    (transactionType : TxType) (userId : ℕ) (notes : Option String) :
    ApiResponse (Product × InventoryLog) × DB :=
  (errResp ("invalid input syntax for type integer, product " ++ toString productId
      ++ " change " ++ toString quantityChange ++ " type "
      ++ (match transactionType with
          | TxType.sale => "sale"
          | TxType.stock_in => "stock_in"
          | TxType.adjustment => "adjustment"
          | TxType.ret => "return")
      ++ " by " ++ toString userId ++ (notes.getD "")), db)

/-- A one-product catalog: product 1, price 10, no tax, given stock. -/
def sampleProduct (qty : ℤ) : Product :=
  { id := 1, name := "Coffee", price := 10, tax_rate := 0, quantity_on_hand := qty }

/-- A client snapshot agreeing with `sampleProduct`. -/
def sampleSnapshot : ProductSnapshot := { name := "Coffee", price := 10, tax_rate := 0 }

/-- A cart line for product 1 with the honest snapshot. -/
def sampleCart (q : ℕ) : CartItem := { product_id := 1, quantity := q, product := sampleSnapshot }

/-- A fresh store holding only `sampleProduct stock`. -/
def db0 (stock : ℤ) : DB :=
  { products := [sampleProduct stock], orders := [], order_items := [],
    inventory_logs := [], next_order_id := 1 }

/-- A completed order header, id 1, cashier 7. -/
def completedOrder : Order :=
  { id := 1, cashier_id := 7, order_number := "ORD-1", status := OrderStatus.completed,
    subtotal := 20, tax_total := 0, total := 20, payment_method := "cash", notes := none }

/-- The single line of `completedOrder`: 2 units of product 1 at price 10. -/
def sampleItem : OrderItem :=
  { order_id := 1, product_id := 1, quantity := 2, unit_price := 10, tax_rate := 0,
    line_total := 20 }

/-- A store holding a completed order with one line. -/
def dbCompleted : DB :=
  { products := [sampleProduct 5], orders := [completedOrder], order_items := [sampleItem],
    inventory_logs := [], next_order_id := 2 }

/-- The same store but with the order already cancelled. -/
def dbCancelled : DB :=
  { dbCompleted with orders := [{ completedOrder with status := OrderStatus.cancelled }] }

/-- The fault set in which only the order-items insert fails. -/
def c1Faults : DbFaults := ⟨none, true, false, false, none⟩

/-- The fault set in which only the return-log insert of a cancellation
fails. -/
def c9Faults : DbFaults := ⟨none, false, false, true, none⟩

/-- The fault set in which only the order-items fetch of a cancellation
fails. -/
def c9FetchFaults : DbFaults := ⟨none, false, true, false, none⟩

/-- A client snapshot whose price disagrees with the live catalog price of
product 1 (10): the client claims 1. -/
def cheatSnapshot : ProductSnapshot := { name := "Coffee", price := 1, tax_rate := 0 }

/-- A cart line carrying the dishonest snapshot. -/
def cheatCart : CartItem := { product_id := 1, quantity := 1, product := cheatSnapshot }

/-- The snapshot for the worked example of the spec: price 12.99, tax 10. -/
def coffeeSnapshot : ProductSnapshot := { name := "Coffee", price := 1299/100, tax_rate := 10 }

/-- Two units of the 12.99 product. -/
def coffeeCart : CartItem := { product_id := 1, quantity := 2, product := coffeeSnapshot }

/-- A store whose live product also has price 12.99 and tax 10. -/
def dbCoffee : DB :=
  { products := [{ id := 1, name := "Coffee", price := 1299/100, tax_rate := 10,
                   quantity_on_hand := 5 }],
    orders := [], order_items := [], inventory_logs := [], next_order_id := 1 }

/-- The cart totals of the worked example. -/
def coffeeTotals : LineTotals := calculateCartTotals [TotalsItem.mk 2 (1299/100) 10]

/-- The order `createOrder` produces for the worked example. -/
def coffeeOrder : Order :=
  { id := 1, cashier_id := 7, order_number := "N1", status := OrderStatus.completed,
    subtotal := coffeeTotals.subtotal, tax_total := coffeeTotals.tax,
    total := coffeeTotals.total, payment_method := "cash", notes := none }

/-- A product priced at 0.006 — a price with more than two decimals, on which
the two totals helpers disagree. -/
def tinySnapshot : ProductSnapshot := { name := "Tiny", price := 3/500, tax_rate := 50 }

/-- One unit of the 0.006 product. -/
def tinyCart : CartItem := { product_id := 1, quantity := 1, product := tinySnapshot }

/-- A store holding the 0.006 product. -/
def dbTiny : DB :=
  { products := [{ id := 1, name := "Tiny", price := 3/500, tax_rate := 50,
                   quantity_on_hand := 5 }],
    orders := [], order_items := [], inventory_logs := [], next_order_id := 1 }

/-- The totals of the dishonest-snapshot cart. -/
def cheatTotals : LineTotals := calculateCartTotals [TotalsItem.mk 1 1 0]

/-- The order `createOrder` produces from the dishonest snapshot. -/
def cheatOrder : Order :=
  { id := 1, cashier_id := 7, order_number := "W6", status := OrderStatus.completed,
    subtotal := cheatTotals.subtotal, tax_total := cheatTotals.tax,
    total := cheatTotals.total, payment_method := "cash", notes := none }

/-- A cart line referencing a product id absent from the catalog. -/
def missingCart : CartItem := { product_id := 99, quantity := 1, product := sampleSnapshot }

/-- A snapshot with a sub-cent unit price, 0.004. -/
def subcentSnapshot : ProductSnapshot := { name := "Subcent", price := 1/250, tax_rate := 0 }

/-- One unit of the 0.004 product. -/
def subcentCart : CartItem := { product_id := 1, quantity := 1, product := subcentSnapshot }

/-- A store holding the 0.004 product. -/
def dbSubcent : DB :=
  { products := [{ id := 1, name := "Subcent", price := 1/250, tax_rate := 0,
                   quantity_on_hand := 5 }],
    orders := [], order_items := [], inventory_logs := [], next_order_id := 1 }

/-- The checkout run of the reversal scenario: 2 units of product 1, stock 5. -/
def c3Checkout : ApiResponse Order × DB :=
  createOrder noFaults (db0 5) 7 [sampleCart 2] "cash" none "ORD-3"

/-- The cancellation of the order created by `c3Checkout`. -/
def c3Cancel : ApiResponse Order × DB := cancelOrder noFaults c3Checkout.2 1 9

/-- First of two checkouts against stock exactly 1, each requesting 1. -/
def c4First : ApiResponse Order × DB :=
  createOrder noFaults (db0 1) 7 [sampleCart 1] "cash" none "ORD-A"

/-- Second checkout, run against the store left by `c4First`. -/
def c4Second : ApiResponse Order × DB :=
  createOrder noFaults c4First.2 8 [sampleCart 1] "cash" none "ORD-B"

/-- Rounding to cents fixes any amount that is already a whole number of
cents. -/
theorem formatDecimal_cents (k : ℤ) : formatDecimal ((k : ℚ) / 100) = (k : ℚ) / 100 := by
  have h : ((k : ℚ) / 100) * 100 = (k : ℚ) := by
    field_simp
  rw [formatDecimal, h, round_intCast]

/-- Rounding to cents is unchanged by adding a whole number of cents. -/
theorem formatDecimal_cents_add (k : ℤ) (x : ℚ) :
    formatDecimal ((k : ℚ) / 100 + x) = (k : ℚ) / 100 + formatDecimal x := by
  have h : ((k : ℚ) / 100 + x) * 100 = (x * 100) + (k : ℚ) := by
    field_simp
    ring
  rw [formatDecimal, h, round_add_int, formatDecimal]
  push_cast
  ring

/-- Every output of `formatDecimal` is a whole number of cents. -/
theorem formatDecimal_is_cents (x : ℚ) : ∃ k : ℤ, formatDecimal x = (k : ℚ) / 100 :=
  ⟨round (x * 100), rfl⟩

/-- Rounding to cents is idempotent. -/
theorem formatDecimal_idem (x : ℚ) : formatDecimal (formatDecimal x) = formatDecimal x := by
  obtain ⟨k, hk⟩ := formatDecimal_is_cents x
  rw [hk, formatDecimal_cents]



/-- A conditional row update whose condition matches no row of the list is the
identity. -/
theorem map_if_id_eq_self (orders : List Order) (oid : ℕ) (g : Order → Order)
    (h : ∀ o ∈ orders, o.id ≠ oid) :
    orders.map (fun o => if o.id == oid then g o else o) = orders := by
  induction orders with
  | nil => rfl
  | cons a l ih =>
    have ha : ¬ ((a.id == oid) = true) := by
      simp only [beq_iff_eq]
      exact h a (List.mem_cons_self a l)
    simp only [List.map_cons, if_neg ha, List.cons.injEq, true_and]
    exact ih (fun o ho => h o (List.mem_cons_of_mem a ho))

/-- The trigger never touches `order_items`. -/
theorem trigger_order_items (db : DB) (o : Order) :
    (update_inventory_on_order db o).order_items = db.order_items := by
  rw [update_inventory_on_order]
  generalize db.order_items.filter (fun it => it.order_id == o.id) = l
  induction l generalizing db with
  | nil => rfl
  | cons a l ih => rw [List.foldl_cons]; exact ih _

/-- The trigger never touches `orders`. -/
theorem trigger_orders (db : DB) (o : Order) :
    (update_inventory_on_order db o).orders = db.orders := by
  rw [update_inventory_on_order]
  generalize db.order_items.filter (fun it => it.order_id == o.id) = l
  induction l generalizing db with
  | nil => rfl
  | cons a l ih => rw [List.foldl_cons]; exact ih _

/-- The trigger never touches `next_order_id`. -/
theorem trigger_next_order_id (db : DB) (o : Order) :
    (update_inventory_on_order db o).next_order_id = db.next_order_id := by
  rw [update_inventory_on_order]
  generalize db.order_items.filter (fun it => it.order_id == o.id) = l
  induction l generalizing db with
  | nil => rfl
  | cons a l ih => rw [List.foldl_cons]; exact ih _

/-- When no stored order item references the new order id — in particular in
every `createOrder` run, where the items are inserted only after the header —
the trigger does nothing at all. -/
theorem trigger_no_items (db : DB) (o : Order)
    (h : ∀ it ∈ db.order_items, it.order_id ≠ o.id) :
    update_inventory_on_order db o = db := by
  rw [update_inventory_on_order]
  have hnil : db.order_items.filter (fun it => it.order_id == o.id) = [] := by
    rw [List.filter_eq_nil_iff]
    intro it hit
    simp only [beq_iff_eq]
    exact h it hit
  rw [hnil]
  rfl

/-- The restore loop with working storage: the rpc failure is dropped, the
return entries are appended, nothing else moves. -/
theorem restoreItems_ok (f : DbFaults) (hf : f.cancelLogInsertFails = false)
    (oid uid : ℕ) (db : DB) (its : List OrderItem) :
    restoreItems f oid uid db its =
      { db with inventory_logs := db.inventory_logs ++ its.map (retEntry oid uid) } := by
  induction its generalizing db with
  | nil => simp [restoreItems]
  | cons a l ih =>
    rw [restoreItems]
    simp only [rpcIncrement, hf, Bool.false_eq_true, if_false]
    rw [ih]
    simp [List.append_assoc]

/-- The restore loop with a failing log insert: since the rpc also fails (and
both results are discarded), the store is completely unchanged. -/
theorem restoreItems_log_fault (f : DbFaults) (hf : f.cancelLogInsertFails = true)
    (oid uid : ℕ) (db : DB) (its : List OrderItem) :
    restoreItems f oid uid db its = db := by
  induction its generalizing db with
  | nil => rfl
  | cons a l ih =>
    rw [restoreItems]
    simp only [rpcIncrement, hf, if_true]
    exact ih db

/-- A validation pass over a passing prefix continues into the suffix. -/
theorem validateItems_append (db : DB) (pre l : List CartItem)
    (h : validateItems db pre = none) :
    validateItems db (pre ++ l) = validateItems db l := by
  induction pre with
  | nil => rfl
  | cons a t ih =>
    rw [List.cons_append]
    simp only [validateItems] at h ⊢
    cases hf : findProduct db a.product_id with
    | none => simp only [hf] at h; cases h
    | some p =>
      simp only [hf] at h ⊢
      by_cases hq : p.quantity_on_hand < (a.quantity : ℤ)
      · simp only [if_pos hq] at h; cases h
      · simp only [if_neg hq] at h ⊢
        exact ih h

/-- A passing validation means every line found its product with enough
stock. -/
theorem validateItems_none_valid (db : DB) (items : List CartItem)
    (h : validateItems db items = none) :
    ∀ it ∈ items, ∃ p, findProduct db it.product_id = some p ∧
      ¬ p.quantity_on_hand < (it.quantity : ℤ) := by
  induction items with
  | nil => intro it hit; cases hit
  | cons a t ih =>
    simp only [validateItems] at h
    cases hf : findProduct db a.product_id with
    | none => simp only [hf] at h; cases h
    | some p =>
      simp only [hf] at h
      by_cases hq : p.quantity_on_hand < (a.quantity : ℤ)
      · simp only [if_pos hq] at h; cases h
      · simp only [if_neg hq] at h
        intro it hit
        rcases List.mem_cons.mp hit with h1 | h2
        · subst h1; exact ⟨p, hf, hq⟩
        · exact ih h it h2

/-- The first line whose product lookup fails determines the validation
error. -/
theorem validateItems_first_missing (db : DB) (pre : List CartItem) (it : CartItem)
    (post : List CartItem) (hpre : validateItems db pre = none)
    (hf : findProduct db it.product_id = none) :
    validateItems db (pre ++ it :: post) =
      some ("Product not found: " ++ toString it.product_id) := by
  rw [validateItems_append db pre _ hpre]
  simp only [validateItems, hf]

/-- The first line with insufficient live stock determines the validation
error; the message names the snapshot product name. -/
theorem validateItems_first_short (db : DB) (pre : List CartItem) (it : CartItem)
    (post : List CartItem) (p : Product) (hpre : validateItems db pre = none)
    (hf : findProduct db it.product_id = some p)
    (hq : p.quantity_on_hand < (it.quantity : ℤ)) :
    validateItems db (pre ++ it :: post) =
      some ("Insufficient stock for product: " ++ it.product.name) := by
  rw [validateItems_append db pre _ hpre]
  simp only [validateItems, hf, if_pos hq]

/-- Checkout with an empty cart: the source returns before touching the
store. -/
theorem createOrder_empty (f : DbFaults) (db : DB) (cid : ℕ) (pm : String)
    (notes : Option String) (onum : String) :
    createOrder f db cid [] pm notes onum = (errResp "Cart is empty", db) := rfl

/-- Checkout returning a validation error returns it unchanged and performs no
write. -/
theorem createOrder_validation_reject (f : DbFaults) (db : DB) (cid : ℕ)
    (items : List CartItem) (pm : String) (notes : Option String) (onum : String)
    (e : String) (hval : validateItems db items = some e) :
    createOrder f db cid items pm notes onum = (errResp e, db) := by
  cases items with
  | nil => cases hval
  | cons a t =>
    simp only [createOrder, List.isEmpty_cons, hval]
    rfl


/-- Every result of `createOrder` is either a failure built by `errResp` or a
success built by `okResp`: no third shape exists in the source. -/
theorem createOrder_result_shape (f : DbFaults) (db : DB) (cid : ℕ)
    (items : List CartItem) (pm : String) (notes : Option String) (onum : String) :
    (∃ e, (createOrder f db cid items pm notes onum).1 = errResp e) ∨
    (∃ o m, (createOrder f db cid items pm notes onum).1 = okResp o m) := by
  simp only [createOrder]
  split
  · exact Or.inl ⟨"Cart is empty", rfl⟩
  · split
    · next e _ => exact Or.inl ⟨e, rfl⟩
    · split
      · next msg _ => exact Or.inl ⟨if msg = "" then "Failed to create order" else msg, rfl⟩
      · split
        · exact Or.inl ⟨"Failed to create order items", rfl⟩
        · exact Or.inr ⟨_, _, rfl⟩

/-- Characterization of a successful checkout run: the returned order and the
inserted order items, every price and tax field of which is read off the
client snapshot, and the totals computed by `calculateCartTotals`. -/
theorem createOrder_success_run (f : DbFaults) (db : DB) (cid : ℕ)
    (items : List CartItem) (pm : String) (notes : Option String) (onum : String)
    (o : Order) (h : (createOrder f db cid items pm notes onum).1.data = some o) :
    o = { id := db.next_order_id, cashier_id := cid, order_number := onum,
          status := OrderStatus.completed,
          subtotal := (calculateCartTotals (items.map (fun i =>
            TotalsItem.mk i.quantity i.product.price i.product.tax_rate))).subtotal,
          tax_total := (calculateCartTotals (items.map (fun i =>
            TotalsItem.mk i.quantity i.product.price i.product.tax_rate))).tax,
          total := (calculateCartTotals (items.map (fun i =>
            TotalsItem.mk i.quantity i.product.price i.product.tax_rate))).total,
          payment_method := pm, notes := notes } ∧
    (createOrder f db cid items pm notes onum).2.order_items =
      db.order_items ++ items.map (fun i =>
        OrderItem.mk db.next_order_id i.product_id i.quantity i.product.price
          i.product.tax_rate
          (calculateCartTotals [TotalsItem.mk i.quantity i.product.price
            i.product.tax_rate]).total) ∧
    (createOrder f db cid items pm notes onum).1.success = true := by
  by_cases hempty : items.isEmpty = true
  · simp only [createOrder, hempty, if_true, errResp] at h
    cases h
  · rw [Bool.not_eq_true] at hempty
    cases hval : validateItems db items with
    | some e =>
      simp only [createOrder, hempty, Bool.false_eq_true, if_false, hval, errResp] at h
      cases h
    | none =>
      cases hins : f.orderInsertError with
      | some msg =>
        simp only [createOrder, hempty, Bool.false_eq_true, if_false, hval, hins, errResp] at h
        cases h
      | none =>
        by_cases hitems : f.orderItemsInsertFails = true
        · simp only [createOrder, hempty, Bool.false_eq_true, if_false, hval, hins,
            hitems, if_true, errResp] at h
          cases h
        · rw [Bool.not_eq_true] at hitems
          simp only [createOrder, hempty, Bool.false_eq_true, if_false, hval, hins,
            hitems, okResp, Option.some.injEq] at h ⊢
          refine ⟨h.symm, ?_, trivial⟩
          rw [trigger_order_items]


/-- With a two-decimal line subtotal, the rounded line total splits into the
unrounded subtotal plus the separately rounded tax — the shape the source
accumulates. -/
theorem line_total_split (s r : ℚ) (k : ℤ) (hk : s * 100 = (k : ℚ)) :
    formatDecimal (s * (1 + r / 100)) = s + calculateTax s r := by
  have h100 : (100 : ℚ) ≠ 0 := by norm_num
  have hs : s = (k : ℚ) / 100 := (eq_div_iff h100).mpr hk
  have h1 : s * (1 + r / 100) = (k : ℚ) / 100 + s * (r / 100) := by
    rw [hs]; ring
  rw [h1, formatDecimal_cents_add, ← hs, calculateTax]

/-- Summing per-line rounded totals over a cart of two-decimal line subtotals
equals the unrounded subtotal sum plus the per-line rounded tax sum. -/
theorem line_sum_split (items : List TotalsItem)
    (h : ∀ it ∈ items, ∃ k : ℤ, (it.quantity : ℚ) * it.unit_price * 100 = (k : ℚ)) :
    (items.map (fun it =>
        formatDecimal ((it.quantity : ℚ) * it.unit_price * (1 + it.tax_rate / 100)))).sum
      = (items.map (fun i => (i.quantity : ℚ) * i.unit_price)).sum
        + (items.map (fun i =>
            calculateTax ((i.quantity : ℚ) * i.unit_price) i.tax_rate)).sum := by
  induction items with
  | nil => simp
  | cons a t ih =>
    obtain ⟨k, hk⟩ := h a (List.mem_cons_self a t)
    have ht : ∀ it ∈ t, ∃ k : ℤ, (it.quantity : ℚ) * it.unit_price * 100 = (k : ℚ) :=
      fun it hit => h it (List.mem_cons_of_mem a hit)
    simp only [List.map_cons, List.sum_cons, ih ht, line_total_split _ _ k hk]
    ring

/-- The order total of `calculateCartTotals` equals the round of the sum of
per-line rounded totals, whenever every line subtotal is a whole number of
cents. -/
theorem calculateCartTotals_total_eq (items : List TotalsItem)
    (h : ∀ it ∈ items, ∃ k : ℤ, (it.quantity : ℚ) * it.unit_price * 100 = (k : ℚ)) :
    (calculateCartTotals items).total =
      formatDecimal ((items.map (fun it =>
        formatDecimal ((it.quantity : ℚ) * it.unit_price * (1 + it.tax_rate / 100)))).sum) := by
  rw [calculateCartTotals]
  show formatDecimal _ = _
  rw [line_sum_split items h]

/-- C5 (amended).  For every cart accepted by checkout whose line subtotals
`price * quantity` are each a whole number of cents — guaranteed when prices
respect the catalog column type DECIMAL(10,2), though not enforced on the
client-supplied snapshot the code actually uses — the created
order's total equals round2(Σ round2(price * qty * (1 + tax/100))), and the
order-level subtotal and tax_total are each the independent round of the
per-line sums with the tax rounded at line level. -/
theorem C5_total_correct (f : DbFaults) (db : DB) (cid : ℕ) (items : List CartItem)
    (pm : String) (notes : Option String) (onum : String) (o : Order)
    (hcents : ∀ it ∈ items, ∃ k : ℤ, (it.quantity : ℚ) * it.product.price * 100 = (k : ℚ))
    (h : (createOrder f db cid items pm notes onum).1.data = some o) :
    o.total = formatDecimal ((items.map (fun it =>
      formatDecimal ((it.quantity : ℚ) * it.product.price
        * (1 + it.product.tax_rate / 100)))).sum) ∧
    o.subtotal = formatDecimal ((items.map (fun it =>
      (it.quantity : ℚ) * it.product.price)).sum) ∧
    o.tax_total = formatDecimal ((items.map (fun it =>
      calculateTax ((it.quantity : ℚ) * it.product.price) it.product.tax_rate)).sum) := by
  obtain ⟨ho, -, -⟩ := createOrder_success_run f db cid items pm notes onum o h
  subst ho
  have hcents2 : ∀ it ∈ items.map (fun i =>
      TotalsItem.mk i.quantity i.product.price i.product.tax_rate),
      ∃ k : ℤ, (it.quantity : ℚ) * it.unit_price * 100 = (k : ℚ) := by
    intro it hit
    obtain ⟨i, hi, rfl⟩ := List.mem_map.mp hit
    exact hcents i hi
  refine ⟨?_, ?_, ?_⟩
  · show (calculateCartTotals _).total = _
    rw [calculateCartTotals_total_eq _ hcents2, List.map_map]
    rfl
  · show (calculateCartTotals _).subtotal = _
    rw [calculateCartTotals]
    show formatDecimal _ = _
    rw [List.map_map]
    rfl
  · show (calculateCartTotals _).tax = _
    rw [calculateCartTotals]
    show formatDecimal _ = _
    rw [List.map_map]
    rfl

/-- Witness for C5: the worked example of the spec — 2 units at 12.99 with 10
percent tax — run through `createOrder`; the hypotheses hold and the total is
28.58. -/
theorem C5_total_correct_witness :
    (createOrder noFaults dbCoffee 7 [coffeeCart] "cash" none "N1").1.data
        = some coffeeOrder ∧
    coffeeOrder.total = formatDecimal (([coffeeCart].map (fun it =>
      formatDecimal ((it.quantity : ℚ) * it.product.price
        * (1 + it.product.tax_rate / 100)))).sum) ∧
    coffeeOrder.total = 2858/100 := by
  have hcents : ∀ it ∈ [coffeeCart],
      ∃ k : ℤ, (it.quantity : ℚ) * it.product.price * 100 = (k : ℚ) := by
    intro it hit
    rw [List.mem_singleton.mp hit]
    exact ⟨2598, by norm_num [coffeeCart, coffeeSnapshot]⟩
  refine ⟨rfl, (C5_total_correct noFaults dbCoffee 7 [coffeeCart] "cash" none "N1"
    coffeeOrder hcents rfl).1, ?_⟩
  show (calculateCartTotals [TotalsItem.mk 2 (1299/100) 10]).total = 2858/100
  rw [calculateCartTotals]
  show formatDecimal _ = _
  simp only [List.map_cons, List.map_nil, List.sum_cons, List.sum_nil, add_zero,
    calculateTax, formatDecimal, round_eq]
  norm_num

/-- C10 (counterexample).  At unit price 0.006, quantity 1, tax rate 50, the
stored line total (computed by `calculateCartTotals` on the one-element list)
is 0.01, while `calculateLineTotal` on the same values gives 0.02 — the two
helpers disagree, and `createOrder` does store the `calculateCartTotals`
value. -/
theorem C10_counterexample :
    (calculateCartTotals [TotalsItem.mk 1 (3/500) 50]).total
        ≠ (calculateLineTotal (3/500) 1 50).total ∧
    (createOrder noFaults dbTiny 7 [tinyCart] "cash" none "N").1.success = true ∧
    ((createOrder noFaults dbTiny 7 [tinyCart] "cash" none "N").2.order_items.map
      (fun it => it.line_total))
        = [(calculateCartTotals [TotalsItem.mk 1 (3/500) 50]).total] := by
  refine ⟨?_, rfl, rfl⟩
  rw [calculateCartTotals, calculateLineTotal]
  simp only [List.map_cons, List.map_nil, List.sum_cons, List.sum_nil, add_zero,
    calculateTax, formatDecimal, round_eq]
  norm_num

/-- C10 (amended).  Whenever the line subtotal `quantity * unit_price` is a
whole number of cents — true of every catalog price, which is a
`DECIMAL(10,2)` column — `calculateCartTotals` on the one-element list and
`calculateLineTotal` agree on subtotal, tax and total. -/
theorem C10_agree_on_cents (q : ℕ) (price rate : ℚ)
    (h : ∃ k : ℤ, (q : ℚ) * price * 100 = (k : ℚ)) :
    calculateCartTotals [TotalsItem.mk q price rate] = calculateLineTotal price q rate := by
  obtain ⟨k, hk⟩ := h
  have h100 : (100 : ℚ) ≠ 0 := by norm_num
  have hs : (q : ℚ) * price = (k : ℚ) / 100 := (eq_div_iff h100).mpr hk
  have hfix : formatDecimal ((q : ℚ) * price) = (q : ℚ) * price := by
    rw [hs, formatDecimal_cents]
  have hcomm : price * (q : ℚ) = (q : ℚ) * price := mul_comm _ _
  rw [calculateCartTotals, calculateLineTotal]
  simp only [List.map_cons, List.map_nil, List.sum_cons, List.sum_nil, add_zero,
    LineTotals.mk.injEq]
  refine ⟨?_, ?_, ?_⟩
  · rw [hcomm, hfix]
  · rw [hcomm, hfix, calculateTax, formatDecimal_idem]
  · rw [hcomm, hfix]

/-- Witness for C10 (amended): at price 10.00, quantity 3, tax 7, the
hypothesis holds and the two helpers agree. -/
theorem C10_agree_on_cents_witness :
    (∃ k : ℤ, ((3 : ℕ) : ℚ) * 10 * 100 = (k : ℚ)) ∧
    calculateCartTotals [TotalsItem.mk 3 10 7] = calculateLineTotal 10 3 7 :=
  ⟨⟨3000, by norm_num⟩, C10_agree_on_cents 3 10 7 ⟨3000, by norm_num⟩⟩


/-- C1 (counterexample).  Checkout of 2 units of product 1 (stock 5) in a run
where the order-items insert fails: the result is a failure, yet the order
header from the attempt is still in the store afterwards (soft-deleted to
status cancelled) — the claimed full rollback does not happen. -/
theorem C1_counterexample :
    ((createOrder c1Faults (db0 5) 7 [sampleCart 2] "cash" none "ORD-1").1.success
        = false) ∧
    (((createOrder c1Faults (db0 5) 7 [sampleCart 2] "cash" none "ORD-1").2.orders.map
        (fun o => (o.id, o.status))) = [(1, OrderStatus.cancelled)]) := by
  decide

/-- C1 (amended).  When the order-items insert fails after the header was
created, `createOrder` returns a failure naming the step, inserts no order
item and no ledger entry — but instead of rolling the header back it leaves
the order from the attempt in the store with status cancelled. -/
theorem C1_soft_delete (f : DbFaults) (db : DB) (cid : ℕ) (items : List CartItem)
    (pm : String) (notes : Option String) (onum : String)
    (hne : items ≠ [])
    (hval : validateItems db items = none)
    (hins : f.orderInsertError = none)
    (hitems : f.orderItemsInsertFails = true)
    (hfreshO : ∀ o ∈ db.orders, o.id ≠ db.next_order_id)
    (hfreshI : ∀ it ∈ db.order_items, it.order_id ≠ db.next_order_id) :
    (createOrder f db cid items pm notes onum).1.success = false ∧
    (createOrder f db cid items pm notes onum).1.error
        = some "Failed to create order items" ∧
    (createOrder f db cid items pm notes onum).2.order_items = db.order_items ∧
    (createOrder f db cid items pm notes onum).2.inventory_logs = db.inventory_logs ∧
    ∃ o : Order, (createOrder f db cid items pm notes onum).2.orders
        = db.orders ++ [o] ∧
      o.id = db.next_order_id ∧ o.status = OrderStatus.cancelled := by
  cases items with
  | nil => exact absurd rfl hne
  | cons a t =>
    simp only [createOrder, List.isEmpty_cons, Bool.false_eq_true, if_false, hval,
      hins, hitems, if_true, errResp]
    rw [trigger_no_items]
    refine ⟨trivial, trivial, rfl, rfl, ?_⟩
    rw [List.map_append, map_if_id_eq_self db.orders db.next_order_id _ hfreshO]
    simp only [List.map_cons, List.map_nil, beq_self_eq_true, if_true]
    exact ⟨_, rfl, rfl, rfl⟩
    intro it hit
    exact hfreshI it hit

/-- Witness for C1 (amended): the concrete failing-items-insert run of
`C1_counterexample`, with every hypothesis discharged. -/
theorem C1_soft_delete_witness :
    ((createOrder c1Faults (db0 5) 7 [sampleCart 2] "cash" none "W1").1.success
        = false) ∧
    ((createOrder c1Faults (db0 5) 7 [sampleCart 2] "cash" none "W1").2.order_items
        = (db0 5).order_items) ∧
    ∃ o : Order, (createOrder c1Faults (db0 5) 7 [sampleCart 2] "cash" none "W1").2.orders
        = (db0 5).orders ++ [o] ∧
      o.id = (db0 5).next_order_id ∧ o.status = OrderStatus.cancelled := by
  have hne : [sampleCart 2] ≠ ([] : List CartItem) := by decide
  have hval : validateItems (db0 5) [sampleCart 2] = none := rfl
  have hfo : ∀ o ∈ (db0 5).orders, o.id ≠ (db0 5).next_order_id := by
    intro o ho
    cases ho
  have hfi : ∀ it ∈ (db0 5).order_items, it.order_id ≠ (db0 5).next_order_id := by
    intro it hit
    cases hit
  obtain ⟨h1, -, h3, -, h5⟩ :=
    C1_soft_delete c1Faults (db0 5) 7 [sampleCart 2] "cash" none "W1"
      hne hval rfl rfl hfo hfi
  exact ⟨h1, h3, h5⟩

/-- C2 (counterexample).  Cancelling an already-cancelled order: the claim
says this fails with an invalid-state-transition error and changes nothing,
but the code returns success and appends a fresh return ledger entry. -/
theorem C2_counterexample :
    ((cancelOrder noFaults dbCancelled 1 9).1.success = true) ∧
    ((cancelOrder noFaults dbCancelled 1 9).2.inventory_logs.length = 1) ∧
    ((cancelOrder noFaults dbCancelled 1 9).1.error = none) := by
  decide

/-- C2 (amended).  `cancelOrder` never reads the current status: for any
stored order — completed, pending or already cancelled — a run with working
storage succeeds, appends one return entry per order line, and returns the
order re-marked cancelled; there is no invalid-state-transition failure, so a
second cancellation succeeds again rather than failing. -/
theorem C2_cancel_ignores_status (db : DB) (oid uid : ℕ) (o : Order)
    (hfind : db.orders.find? (fun x => x.id == oid) = some o) :
    (cancelOrder noFaults db oid uid).1.success = true ∧
    (cancelOrder noFaults db oid uid).1.data
        = some { o with status := OrderStatus.cancelled } ∧
    (cancelOrder noFaults db oid uid).2.inventory_logs =
      db.inventory_logs ++
        (db.order_items.filter (fun it => it.order_id == oid)).map (retEntry oid uid) := by
  have h1 : noFaults.cancelItemsFetchFails = false := rfl
  have h2 : noFaults.cancelStatusUpdateError = (none : Option String) := rfl
  simp only [cancelOrder, h1, Bool.false_eq_true, if_false, h2]
  rw [restoreItems_ok noFaults rfl]
  simp only [hfind, okResp]
  refine ⟨?_, ?_, ?_⟩ <;> trivial

/-- Witness for C2 (amended): cancelling the already-cancelled order of
`dbCancelled` succeeds and appends a return entry for its line. -/
theorem C2_cancel_ignores_status_witness :
    (dbCancelled.orders.find? (fun x => x.id == 1)
        = some { completedOrder with status := OrderStatus.cancelled }) ∧
    ((cancelOrder noFaults dbCancelled 1 9).1.success = true) ∧
    ((cancelOrder noFaults dbCancelled 1 9).2.inventory_logs =
      dbCancelled.inventory_logs ++
        (dbCancelled.order_items.filter (fun it => it.order_id == 1)).map (retEntry 1 9)) := by
  have hfind : dbCancelled.orders.find? (fun x => x.id == 1)
      = some { completedOrder with status := OrderStatus.cancelled } := rfl
  obtain ⟨h1, -, h3⟩ := C2_cancel_ignores_status dbCancelled 1 9
    { completedOrder with status := OrderStatus.cancelled } hfind
  exact ⟨hfind, h1, h3⟩

/-- C6 (counterexample).  The live catalog price of product 1 is 10, but the
client snapshot claims 1: checkout succeeds and the stored order line carries
unit price 1 — the client snapshot, not the live product, is what determines
the stored price. -/
theorem C6_counterexample :
    ((createOrder noFaults (db0 5) 7 [cheatCart] "cash" none "W6").1.success = true) ∧
    (((db0 5).products.map (fun p => p.price)) = [10]) ∧
    (((createOrder noFaults (db0 5) 7 [cheatCart] "cash" none "W6").2.order_items.map
        (fun it => it.unit_price)) = [1]) :=
  ⟨rfl, rfl, rfl⟩

/-- C6 (amended).  On every successful checkout, the unit price and tax rate
written to the order lines, and the totals of the returned order, are computed
from the client-supplied snapshot fields `item.product.price` and
`item.product.tax_rate`; the live product is consulted only for existence and
`quantity_on_hand`. -/
theorem C6_snapshot_prices (f : DbFaults) (db : DB) (cid : ℕ) (items : List CartItem)
    (pm : String) (notes : Option String) (onum : String) (o : Order)
    (h : (createOrder f db cid items pm notes onum).1.data = some o) :
    (createOrder f db cid items pm notes onum).2.order_items =
      db.order_items ++ items.map (fun i =>
        OrderItem.mk db.next_order_id i.product_id i.quantity i.product.price
          i.product.tax_rate
          (calculateCartTotals [TotalsItem.mk i.quantity i.product.price
            i.product.tax_rate]).total) ∧
    o.subtotal = (calculateCartTotals (items.map (fun i =>
      TotalsItem.mk i.quantity i.product.price i.product.tax_rate))).subtotal ∧
    o.tax_total = (calculateCartTotals (items.map (fun i =>
      TotalsItem.mk i.quantity i.product.price i.product.tax_rate))).tax ∧
    o.total = (calculateCartTotals (items.map (fun i =>
      TotalsItem.mk i.quantity i.product.price i.product.tax_rate))).total := by
  obtain ⟨ho, hitems, -⟩ := createOrder_success_run f db cid items pm notes onum o h
  subst ho
  exact ⟨hitems, rfl, rfl, rfl⟩

/-- Witness for C6 (amended): the dishonest-snapshot run stores the snapshot
price 1 in the order line. -/
theorem C6_snapshot_prices_witness :
    ((createOrder noFaults (db0 5) 7 [cheatCart] "cash" none "W6").1.data
        = some cheatOrder) ∧
    ((createOrder noFaults (db0 5) 7 [cheatCart] "cash" none "W6").2.order_items =
      (db0 5).order_items ++ [cheatCart].map (fun i =>
        OrderItem.mk (db0 5).next_order_id i.product_id i.quantity i.product.price
          i.product.tax_rate
          (calculateCartTotals [TotalsItem.mk i.quantity i.product.price
            i.product.tax_rate]).total)) :=
  ⟨rfl, (C6_snapshot_prices noFaults (db0 5) 7 [cheatCart] "cash" none "W6"
      cheatOrder rfl).1⟩

/-- C7.  Checkout rejects without mutating the store: an empty cart yields the
empty-cart error with the store untouched (the source returns before creating
the storage client); any validation error is returned as-is with the store
unchanged; a missing product or a line over live stock forces such an error;
and the first offending line determines the message — naming the missing
product id, or the short product. -/
theorem C7_validation_rejects (f : DbFaults) (db : DB) (cid : ℕ)
    (items : List CartItem) (pm : String) (notes : Option String) (onum : String) :
    (items = [] →
      createOrder f db cid items pm notes onum = (errResp "Cart is empty", db)) ∧
    (∀ e, validateItems db items = some e →
      createOrder f db cid items pm notes onum = (errResp e, db)) ∧
    (∀ it ∈ items, findProduct db it.product_id = none →
      ∃ e, validateItems db items = some e) ∧
    (∀ it ∈ items, ∀ p, findProduct db it.product_id = some p →
      p.quantity_on_hand < (it.quantity : ℤ) →
      ∃ e, validateItems db items = some e) ∧
    (∀ pre it post, items = pre ++ it :: post → validateItems db pre = none →
      findProduct db it.product_id = none →
      createOrder f db cid items pm notes onum =
        (errResp ("Product not found: " ++ toString it.product_id), db)) ∧
    (∀ pre it post p, items = pre ++ it :: post → validateItems db pre = none →
      findProduct db it.product_id = some p →
      p.quantity_on_hand < (it.quantity : ℤ) →
      createOrder f db cid items pm notes onum =
        (errResp ("Insufficient stock for product: " ++ it.product.name), db)) := by
  refine ⟨?_, ?_, ?_, ?_, ?_, ?_⟩
  · intro h
    subst h
    exact createOrder_empty f db cid pm notes onum
  · intro e he
    exact createOrder_validation_reject f db cid items pm notes onum e he
  · intro it hit hf
    cases hv : validateItems db items with
    | none =>
      obtain ⟨p, hp, -⟩ := validateItems_none_valid db items hv it hit
      rw [hf] at hp
      cases hp
    | some e => exact ⟨e, rfl⟩
  · intro it hit p hp hq
    cases hv : validateItems db items with
    | none =>
      obtain ⟨p2, hp2, hq2⟩ := validateItems_none_valid db items hv it hit
      rw [hp] at hp2
      cases hp2
      exact absurd hq hq2
    | some e => exact ⟨e, rfl⟩
  · intro pre it post heq hpre hf
    subst heq
    exact createOrder_validation_reject f db cid _ pm notes onum _
      (validateItems_first_missing db pre it post hpre hf)
  · intro pre it post p heq hpre hp hq
    subst heq
    exact createOrder_validation_reject f db cid _ pm notes onum _
      (validateItems_first_short db pre it post p hpre hp hq)

/-- Witness for C7: the three rejection kinds at concrete inputs — empty cart,
missing product 99, and a request of 2 against stock 1 — each leaving the
store exactly as it was. -/
theorem C7_validation_rejects_witness :
    (createOrder noFaults (db0 5) 7 [] "cash" none "W7")
        = (errResp "Cart is empty", db0 5) ∧
    (createOrder noFaults (db0 5) 7 [missingCart] "cash" none "W7")
        = (errResp ("Product not found: " ++ toString (99 : ℕ)), db0 5) ∧
    (createOrder noFaults (db0 1) 7 [sampleCart 2] "cash" none "W7")
        = (errResp ("Insufficient stock for product: " ++ "Coffee"), db0 1) := by
  refine ⟨(C7_validation_rejects noFaults (db0 5) 7 [] "cash" none "W7").1 rfl, ?_, ?_⟩
  · exact (C7_validation_rejects noFaults (db0 5) 7 [missingCart] "cash" none
      "W7").2.2.2.2.1 [] missingCart [] rfl rfl rfl
  · exact (C7_validation_rejects noFaults (db0 1) 7 [sampleCart 2] "cash" none
      "W7").2.2.2.2.2 [] (sampleCart 2) [] (sampleProduct 1) rfl rfl rfl (by decide)


/-- C3 (code bug).  Checkout of 2 units of product 1 (stock 5) followed by
cancellation of the created order (id 1): the cancellation does write exactly
one return entry (+2) referencing the order and does set the status to
cancelled, but the signed sum of all ledger entries referencing the order is
+2, not 0, and the stock never moved at all — the trigger wrote no sale
entries at checkout because it fires on the header insert, before any order
items exist, and the increment rpc does not exist so the restore silently
fails. -/
theorem C3_ledger_not_reversed :
    c3Checkout.1.success = true ∧ c3Cancel.1.success = true ∧
    ((c3Cancel.2.inventory_logs.filter (fun e => e.reference_id == some 1)).map
        (fun e => (e.transaction_type, e.quantity_change))) = [(TxType.ret, 2)] ∧
    (((c3Cancel.2.inventory_logs.filter (fun e => e.reference_id == some 1)).map
        (fun e => e.quantity_change)).sum = 2) ∧
    ((c3Cancel.2.orders.map (fun o => o.status)) = [OrderStatus.cancelled]) ∧
    ((c3Cancel.2.products.map (fun p => p.quantity_on_hand)) = [5]) := by
  decide

/-- C4 (code bug).  Product 1 has stock exactly 1; two checkouts each
requesting 1 run one after the other — one legal schedule of two simultaneous
checkouts.  Both succeed and the stock is still 1 afterwards: the trigger the
checkout comments rely on fires at the header insert, before the order items
exist, so no decrement — conditional or otherwise — ever runs, no sale entry
is written, and no second checkout can fail at commit time. -/
theorem C4_double_sale_both_succeed :
    c4First.1.success = true ∧ c4Second.1.success = true ∧
    ((c4Second.2.products.map (fun p => p.quantity_on_hand)) = [1]) ∧
    c4Second.2.orders.length = 2 ∧
    ((c4Second.2.inventory_logs.filter (fun e => e.transaction_type == TxType.sale)) = []) := by
  decide

/-- C8 (code bug).  `updateStock` can never do what the claim and its own
header comment describe: its update statement assigns a query-builder object —
not `quantity_on_hand + quantityChange` — to the integer column, so every call
fails, applies nothing to the product, and appends no ledger entry; in
particular no path reaches the non-negativity safety net. -/
theorem C8_updateStock_never_applies (db : DB) (productId : ℕ) (quantityChange : ℤ)
    (transactionType : TxType) (userId : ℕ) (notes : Option String) :
    (updateStock db productId quantityChange transactionType userId notes).2 = db ∧
    (updateStock db productId quantityChange transactionType userId notes).1.success
        = false ∧
    ((updateStock db productId quantityChange transactionType userId notes).1.error).isSome
        = true :=
  ⟨rfl, rfl, rfl⟩

/-- C9 (counterexample).  Cancelling the completed order of `dbCompleted` in a
run where the return-log insert fails (and the increment rpc fails as always):
`cancelOrder` still reports success with its inventory-restored message,
although no ledger entry was written and no quantity moved. -/
theorem C9_counterexample :
    ((cancelOrder c9Faults dbCompleted 1 9).1.success = true) ∧
    ((cancelOrder c9Faults dbCompleted 1 9).1.message
        = some "Order cancelled and inventory restored") ∧
    ((cancelOrder c9Faults dbCompleted 1 9).2.inventory_logs
        = dbCompleted.inventory_logs) ∧
    ((cancelOrder c9Faults dbCompleted 1 9).2.products.map (fun p => p.quantity_on_hand)
        = dbCompleted.products.map (fun p => p.quantity_on_hand)) := by
  decide

/-- C9 (amended).  `createOrder` reflects every internal failure — whenever it
returns success = false its error field is set — and `cancelOrder` reflects
item-fetch and status-update failures the same way; but `cancelOrder` discards
the results of the inventory-restore rpc and of the return-log insert, so with
a failing log insert it still returns success on any stored order, with no log
entry and no product change. -/
theorem C9_error_reporting :
    (∀ (f : DbFaults) (db : DB) (cid : ℕ) (items : List CartItem) (pm : String)
        (notes : Option String) (onum : String),
      (createOrder f db cid items pm notes onum).1.success = false →
      ((createOrder f db cid items pm notes onum).1.error).isSome = true) ∧
    (∀ (f : DbFaults) (db : DB) (oid uid : ℕ), f.cancelItemsFetchFails = true →
      (cancelOrder f db oid uid).1 = errResp "Failed to fetch order items") ∧
    (∀ (f : DbFaults) (db : DB) (oid uid : ℕ) (msg : String),
      f.cancelItemsFetchFails = false → f.cancelStatusUpdateError = some msg →
      (cancelOrder f db oid uid).1 = errResp msg) ∧
    (∀ (db : DB) (oid uid : ℕ) (o : Order),
      db.orders.find? (fun x => x.id == oid) = some o →
      (cancelOrder c9Faults db oid uid).1.success = true ∧
      (cancelOrder c9Faults db oid uid).2.inventory_logs = db.inventory_logs ∧
      (cancelOrder c9Faults db oid uid).2.products = db.products) := by
  refine ⟨?_, ?_, ?_, ?_⟩
  · intro f db cid items pm notes onum h
    rcases createOrder_result_shape f db cid items pm notes onum with ⟨e, he⟩ | ⟨o, m, ho⟩
    · rw [he]
      rfl
    · rw [ho] at h
      cases h
  · intro f db oid uid h
    simp only [cancelOrder, h, if_true]
  · intro f db oid uid msg h1 h2
    simp only [cancelOrder, h1, Bool.false_eq_true, if_false, h2]
  · intro db oid uid o hfind
    have hfetch : c9Faults.cancelItemsFetchFails = false := rfl
    have hupd : c9Faults.cancelStatusUpdateError = (none : Option String) := rfl
    simp only [cancelOrder, hfetch, Bool.false_eq_true, if_false, hupd]
    rw [restoreItems_log_fault c9Faults rfl]
    simp only [hfind, okResp]
    refine ⟨?_, ?_, ?_⟩ <;> trivial

/-- Witness for C9 (amended): an empty-cart checkout failure carries an error;
a fetch-failing cancellation returns the fetch error; a log-insert-failing
cancellation of the completed order of `dbCompleted` reports success with no
ledger entry and no product change. -/
theorem C9_error_reporting_witness :
    ((createOrder noFaults (db0 5) 7 [] "cash" none "W9").1.success = false) ∧
    (((createOrder noFaults (db0 5) 7 [] "cash" none "W9").1.error).isSome = true) ∧
    ((cancelOrder c9FetchFaults dbCompleted 1 9).1
        = errResp "Failed to fetch order items") ∧
    ((cancelOrder c9Faults dbCompleted 1 9).1.success = true ∧
     (cancelOrder c9Faults dbCompleted 1 9).2.inventory_logs
        = dbCompleted.inventory_logs ∧
     (cancelOrder c9Faults dbCompleted 1 9).2.products = dbCompleted.products) := by
  refine ⟨rfl, ?_, ?_, ?_⟩
  · exact C9_error_reporting.1 noFaults (db0 5) 7 [] "cash" none "W9" rfl
  · exact C9_error_reporting.2.1 c9FetchFaults dbCompleted 1 9 rfl
  · exact C9_error_reporting.2.2.2 dbCompleted 1 9 completedOrder rfl


/-- C5 (counterexample).  A cart of two lines, each one unit at the sub-cent
price 0.004 with no tax: checkout succeeds and stores total 0.01 (the source
rounds only the per-line tax, keeping the unrounded 0.008 subtotal), while the
claimed formula round2(Sigma round2(price * qty * (1 + tax/100))) gives 0 —
the stored total does not equal the claimed expression for every cart. -/
theorem C5_counterexample :
    ∃ o, (createOrder noFaults dbSubcent 7 [subcentCart, subcentCart] "cash" none
        "N5").1.data = some o ∧
      o.total ≠ formatDecimal (([subcentCart, subcentCart].map (fun it =>
        formatDecimal ((it.quantity : ℚ) * it.product.price
          * (1 + it.product.tax_rate / 100)))).sum) := by
  refine ⟨_, rfl, ?_⟩
  show (calculateCartTotals _).total ≠ _
  rw [calculateCartTotals]
  show formatDecimal _ ≠ _
  simp only [List.map_cons, List.map_nil, List.sum_cons, List.sum_nil, add_zero,
    subcentCart, subcentSnapshot, calculateTax, formatDecimal, round_eq]
  norm_num

end POS
